import Mathlib

/-!
# Verification of the loom-sync-obsidian change-to-commit coordination core

This file gives a shallow embedding, in Lean, of the core of the
loom-sync-obsidian plugin: the change filter and aggregator
(`src/file-watcher.ts`), the sync coordinator (`src/sync-manager.ts`), the
gateway-facing helpers (`src/git-service.ts`) and the shared utilities
(`src/utils.ts`).  Each definition is translated from the corresponding
TypeScript source; asynchronous code is modelled by explicit state passing
on the host's single cooperative thread, and the version-control gateway is
modelled as an oracle deciding the outcome of each gateway call.
Theorems at the end of the file settle the specification claims C1..C10.
-/

namespace Loom

/-- `src/file-watcher.ts`: `type FileChangeAction = 'create' | 'modify' | 'delete' | 'rename'`. -/
inductive FileChangeAction
  | create
  | modify
  | delete
  | rename
deriving DecidableEq, Repr

/-- `src/sync-manager.ts`: `type SyncStatus = 'idle' | 'syncing' | 'error' | 'offline'`. -/
inductive SyncStatus
  | idle
  | syncing
  | error
  | offline
deriving DecidableEq, Repr

/-- `src/settings.ts`: `authMethod: 'ssh' | 'https'`. -/
inductive AuthMethod
  | ssh
  | https
deriving DecidableEq, Repr

/-- `src/settings.ts`: interface `LoomSettings`. -/
structure LoomSettings where
  remoteUrl : String
  branch : String
  authMethod : AuthMethod
  autoSync : Bool
  commitMessageTemplate : String
  debounceDelay : Nat
  excludePatterns : List String
  gitUserName : String
  gitUserEmail : String
  autoPush : Bool
  showNotifications : Bool
  lastSync : Nat
  repositoryInitialized : Bool
deriving DecidableEq, Repr

/-- `src/settings.ts`: `DEFAULT_SETTINGS`. -/
def DEFAULT_SETTINGS : LoomSettings :=
  { remoteUrl := ""
    branch := "main"
    authMethod := AuthMethod.https
    autoSync := true
    commitMessageTemplate := "{action}: {filename}"
    debounceDelay := 500
    excludePatterns :=
      [".obsidian/workspace.json", ".obsidian/workspace-mobile.json",
       ".obsidian/cache", "*.tmp", "*~", ".DS_Store", "Thumbs.db"]
    gitUserName := ""
    gitUserEmail := ""
    autoPush := false
    showNotifications := true
    lastSync := 0
    repositoryInitialized := false }

/-- Obsidian's `TFile` as observed by the core: a vault-relative `path` and a
base `name` (the part used for commit messages). -/
structure TFile where
  path : String
  name : String
deriving DecidableEq, Repr

/-! ## `src/utils.ts` helpers -/

/-- One character of `sanitizeFilename`'s character class `[<>:"|?*]`
(`Char.ofNat 34` is the double-quote character). -/
def isBadCommitChar (c : Char) : Bool :=
  c = '<' || c = '>' || c = ':' || c = Char.ofNat 34 || c = '|' || c = '?' || c = '*'

/-- `src/utils.ts`: `sanitizeFilename` replaces every occurrence of the
characters `< > : " | ? *` by an underscore (`/[<>:"|?*]/g`). -/
def sanitizeFilename (filename : String) : String :=
  String.mk (filename.data.map (fun c => if isBadCommitChar c then '_' else c))

/-! ## First-occurrence string replacement (JavaScript `String.replace` with a
string pattern).

JavaScript's `replace`, used by `GitService.generateCommitMessage`, replaces
only the first occurrence of the pattern, and interprets dollar escapes in the
replacement string: `$$` inserts `$`, `$&` inserts the matched substring,
``$` `` inserts the portion before the match and `$'` the portion after it
(with a string pattern there are no capture groups, so `$1` etc. stay
literal). -/

/-- Split `hay` around the first occurrence of `pat`: returns the characters
before and after the match, or `none` when `pat` does not occur. -/
def splitAtFirst : List Char → List Char → Option (List Char × List Char)
  | [], pat => if pat.isEmpty then some ([], []) else none
  | c :: rest, pat =>
    if pat.isPrefixOf (c :: rest) then some ([], (c :: rest).drop pat.length)
    else (splitAtFirst rest pat).map (fun p => (c :: p.1, p.2))

/-- Expand the dollar escapes of a JavaScript replacement string
(`Char.ofNat 96` is the backtick, `Char.ofNat 39` the apostrophe). -/
def expandRepl (matched before after : List Char) : List Char → List Char
  | [] => []
  | ['$'] => ['$']
  | '$' :: d :: rest2 =>
    if d = '$' then '$' :: expandRepl matched before after rest2
    else if d = '&' then matched ++ expandRepl matched before after rest2
    else if d = Char.ofNat 96 then before ++ expandRepl matched before after rest2
    else if d = Char.ofNat 39 then after ++ expandRepl matched before after rest2
    else '$' :: expandRepl matched before after (d :: rest2)
  | c :: rest => c :: expandRepl matched before after rest

/-- JavaScript `s.replace(pat, repl)` with string `pat` and string `repl`:
first occurrence only, dollar escapes honoured. -/
def jsReplace (s pat repl : String) : String :=
  match splitAtFirst s.data pat.data with
  | none => s
  | some p => String.mk (p.1 ++ expandRepl pat.data p.1 p.2 repl.data ++ p.2)

/-- Plain textual first-occurrence substitution, with the replacement inserted
literally.  This follows the spec's words "the template with `{action}`
replaced by ... and `{filename}` replaced by ..." and is compared against the
source's `jsReplace` semantics. -/
def literalReplace (s pat repl : String) : String :=
  match splitAtFirst s.data pat.data with
  | none => s
  | some p => String.mk (p.1 ++ repl.data ++ p.2)

/-! ## Change Filter (`src/file-watcher.ts`) -/

/-- One atom of a regular expression produced by the pattern translation of
`FileWatcher.matchesPattern`: a literal character (ordinary characters, and
`.` which the translation escapes to `\.`), `.` (from `?`), `.*` (from `*`),
or `c*` (zero or more of a literal; `c+` is desugared to `c c*` and `.+` to
`. .*` at translation time). -/
inductive GlobAtom
  | lit (c : Char)
  | anyChar
  | anyRun
  | starLit (c : Char)
deriving DecidableEq, Repr

/-- Anchored matching of an atom sequence against a character list: the
whole input must be consumed (regex `^…$` with no alternation). -/
def atomsMatch : List GlobAtom → List Char → Bool
  | [], s => s.isEmpty
  | .lit c :: ps, s =>
    match s with
    | [] => false
    | d :: s' => (c == d) && atomsMatch ps s'
  | .anyChar :: ps, s =>
    match s with
    | [] => false
    | _ :: s' => atomsMatch ps s'
  | .anyRun :: ps, s =>
    (List.range (s.length + 1)).any (fun k => atomsMatch ps (s.drop k))
  | .starLit c :: ps, s =>
    (List.range (s.length + 1)).any
      (fun k => ((s.take k).all (fun d => d == c)) && atomsMatch ps (s.drop k))

/-- Split a pattern at its `|` characters.  A `|` passes through the
translation unescaped, so it splits the anchored regex `^…$` into
alternatives — only the first keeps the `^` and only the last keeps the
`$`. -/
def splitBar : List Char → List (List Char)
  | [] => [[]]
  | c :: rest =>
    if c = '|' then [] :: splitBar rest
    else
      match splitBar rest with
      | [] => [[c]]
      | a :: as => (c :: a) :: as

/-- Translate one `|`-free alternative of a pattern into regex atoms,
following the source's
`.replace(/\./g,'\\.').replace(/\*/g,'.*').replace(/\?/g,'.')`: a literal
dot is escaped, `*` becomes `.*`, `?` becomes `.`, and every other
character keeps its regex meaning.  Of those, the model covers `+`
(one-or-more of the preceding literal or `.` atom; a `+` with nothing to
repeat — at the start, or after `*` or another `+` — is a SyntaxError in
the source, modelled as `none`).  Patterns containing `( ) [ ] { } ^ $ \`
are outside the modelled fragment (`none`): on them the source throws a
SyntaxError at `new RegExp` or uses regex features not modelled here, and
no theorem below quantifies over them. -/
def translateAux : List GlobAtom → List Char → Option (List GlobAtom)
  | acc, [] => some acc
  | acc, c :: rest =>
    if c = '*' then translateAux (acc ++ [GlobAtom.anyRun]) rest
    else if c = '?' then translateAux (acc ++ [GlobAtom.anyChar]) rest
    else if c = '+' then
      match acc.getLast? with
      | some (GlobAtom.lit d) => translateAux (acc ++ [GlobAtom.starLit d]) rest
      | some GlobAtom.anyChar => translateAux (acc ++ [GlobAtom.anyRun]) rest
      | _ => none
    else if c.toNat ∈ [40, 41, 91, 93, 123, 125, 94, 36, 92] then none
    else translateAux (acc ++ [GlobAtom.lit c]) rest

/-- Translate every alternative; `none` when any alternative falls outside
the modelled fragment. -/
def translateAlts : List (List Char) → Option (List (List GlobAtom))
  | [] => some []
  | a :: as =>
    match translateAux [] a, translateAlts as with
    | some x, some xs => some (x :: xs)
    | _, _ => none

/-- `FileWatcher.matchesPattern`'s pattern translation, as alternatives of
regex atoms. -/
def translatePattern (pattern : String) : Option (List (List GlobAtom)) :=
  translateAlts (splitBar pattern.data)

/-- The non-first alternatives of `RegExp.test` on the translated pattern:
middle alternatives are unanchored (substring match), the last keeps only
the trailing `$` (suffix match); the unanchored sides are expressed by
padding with `.*`. -/
def regexTestTail : List (List GlobAtom) → List Char → Bool
  | [], _ => false
  | [alt], s => atomsMatch (GlobAtom.anyRun :: alt) s
  | alt :: b :: rest, s =>
    atomsMatch (GlobAtom.anyRun :: (alt ++ [GlobAtom.anyRun])) s
      || regexTestTail (b :: rest) s

/-- `RegExp.test` on the translated pattern `^p₁|p₂|…|pₙ$`: a single
alternative is anchored on both sides (full match); with several, the first
keeps only `^` (prefix match) and the rest follow `regexTestTail`. -/
def regexTest : List (List GlobAtom) → List Char → Bool
  | [], _ => false
  | [alt], s => atomsMatch alt s
  | alt :: b :: rest, s =>
    atomsMatch (alt ++ [GlobAtom.anyRun]) s || regexTestTail (b :: rest) s

/-- `FileWatcher.matchesPattern(filePath, pattern)` (lines 127-137): build
the anchored regex from the pattern and test the path against it.  A
pattern outside the modelled fragment reports no match (see
`translateAux`). -/
def matchesPattern (filePath pattern : String) : Bool :=
  match translatePattern pattern with
  | some alts => regexTest alts filePath.data
  | none => false

/-- The pattern-independent part of `FileWatcher.shouldIgnoreFile`: the
`.git/` directory check and the fixed temp/system-file rules
(`/\.tmp$/, /~$/, /\.DS_Store$/, /^Thumbs\.db$/, /\.swp$/, /\.swo$/`). -/
def fixedIgnore (filePath : String) : Bool :=
  ".git/".data.isPrefixOf filePath.data ||
  ".tmp".data.isSuffixOf filePath.data ||
  "~".data.isSuffixOf filePath.data ||
  ".DS_Store".data.isSuffixOf filePath.data ||
  filePath == "Thumbs.db" ||
  ".swp".data.isSuffixOf filePath.data ||
  ".swo".data.isSuffixOf filePath.data

/-- `FileWatcher.shouldIgnoreFile`: true when any configured exclusion
pattern matches the file's path, or one of the fixed rules fires. -/
def shouldIgnoreFile (settings : LoomSettings) (filePath : String) : Bool :=
  settings.excludePatterns.any (fun pattern => matchesPattern filePath pattern) ||
  fixedIgnore filePath

/-! ## Change Aggregator (`debounce` in `src/utils.ts`, used by
`FileWatcher.handleFileChange`)

`debounce(func, delay)` keeps a single pending timer: each call clears any
pending timer and schedules `func` with the **current** call's arguments
`delay` milliseconds later, so `func` runs only for a call that is not
followed by another call within `delay`.  `debounceRuns` computes, for a
timestamped call sequence (strictly increasing times), the argument values
`func` is actually invoked with, in order: a call survives exactly when the
next call arrives at or after its deadline (a timer that has already fired
cannot be cleared). -/
def debounceRuns {α : Type} (delay : Nat) : List (Nat × α) → List α
  | [] => []
  | [(_, a)] => [a]
  | (t, a) :: (t', b) :: rest =>
    if t' < t + delay then debounceRuns delay ((t', b) :: rest)
    else a :: debounceRuns delay ((t', b) :: rest)

/-- All consecutive gaps of the call sequence are below `delay`: the whole
sequence falls within one debounce window. -/
def withinWindow {α : Type} (delay : Nat) : List (Nat × α) → Bool
  | [] => true
  | [_] => true
  | (t, _) :: (t', b) :: rest => decide (t' < t + delay) && withinWindow delay ((t', b) :: rest)

/-- `FileWatcher.handleFileChange` is `debounce` (fixed 500 ms window, see
`src/file-watcher.ts` line 56) around a callback that drops the event when
the watcher is stopped or `shouldIgnoreFile` rejects it, and otherwise hands
the event to the sync manager.  `watcherEmits` gives the events the watcher
delivers for a timestamped raw event sequence, with the watcher active. -/
def watcherEmits (settings : LoomSettings)
    (events : List (Nat × TFile × FileChangeAction)) : List (TFile × FileChangeAction) :=
  (debounceRuns 500 events).filter (fun e => !(shouldIgnoreFile settings e.1.path))

/-- Modelled from the spec (§8, §4.2): the batch content of one debounce
window is every accumulated event with, per path, the last action winning.
Stated for comparison with the source's `watcherEmits`; the source does not
contain such an accumulator. -/
def specWindowBatch (events : List (TFile × FileChangeAction)) : List (TFile × FileChangeAction) :=
  events.foldl
    (fun acc e =>
      if acc.any (fun x => x.1.path == e.1.path) then
        acc.map (fun x => if x.1.path == e.1.path then e else x)
      else acc ++ [e])
    []

/-- The `FileWatcher` object: `settings` is replaced by `updateSettings`, but
the debounced handler is created once, at construction, with the literal
delay `500` (`src/file-watcher.ts` line 56: `debounce(..., 500); // Use a
fixed debounce for now`), recorded here as `handlerDelay`. -/
structure FileWatcher where
  settings : LoomSettings
  handlerDelay : Nat
deriving DecidableEq, Repr

/-- The `FileWatcher` constructor.  The class-property initializer
`handleFileChange = debounce(..., 500)` fixes the window at 500 ms. -/
def newFileWatcher (settings : LoomSettings) : FileWatcher :=
  { settings := settings, handlerDelay := 500 }

/-- `FileWatcher.updateSettings`: replaces the settings object only; the
debounced handler (and hence its delay) is untouched. -/
def FileWatcher.update (w : FileWatcher) (settings : LoomSettings) : FileWatcher :=
  { w with settings := settings }

/-! ## Version-Control Gateway helpers (`src/git-service.ts`) -/

/-- `GitService.isRepositoryInitialized` (`src/git-service.ts` lines 19-27):
the body is `return true; // Will be caught if not a git repo` inside a
`try`, so it reports `true` whatever the actual state of the vault
(`repoExists` is the real world, which the source never consults). -/
def isRepositoryInitialized (_repoExists : Bool) : Bool :=
  true

/-- `GitService.capitalizeFirst`. -/
def capitalizeFirst (s : String) : String :=
  match s.data with
  | [] => ""
  | c :: rest => String.mk (c.toUpper :: rest)

/-- `SyncManager.getActionDisplayName`. -/
def getActionDisplayName (action : FileChangeAction) : String :=
  match action with
  | .create => "Created"
  | .modify => "Updated"
  | .delete => "Deleted"
  | .rename => "Renamed"

/-- `GitService.generateCommitMessage(action, filename)`:
`template.replace('{action}', capitalizeFirst(action)).replace('{filename}', filename)`
with JavaScript `String.replace` semantics. -/
def generateCommitMessage (settings : LoomSettings) (action filename : String) : String :=
  jsReplace (jsReplace settings.commitMessageTemplate "{action}" (capitalizeFirst action))
    "{filename}" filename

/-- `SyncManager.generateCommitMessage(operation)`: sanitizes the file's
name, takes the action's display name, and delegates to the git service. -/
def generateOperationMessage (settings : LoomSettings)
    (action : FileChangeAction) (fileName : String) : String :=
  generateCommitMessage settings (getActionDisplayName action) (sanitizeFilename fileName)

/-! ## Sync Coordinator (`src/sync-manager.ts`)

The coordinator runs on the host's single cooperative thread, so its
behaviour is modelled as pure state transformers on `SyncState`.  The
gateway is modelled by an oracle `g : Nat → Bool` giving the outcome of the
n-th gateway commit call overall (a successful call covers staging, the
"nothing staged" no-op path, and the commit itself; a `false` is a thrown
gateway failure).  `calls` is the audit log of gateway commit calls, one
entry (the operation's file path) per call, oldest first; backoff sleeps do
not influence outcomes and are not modelled. -/

/-- `src/sync-manager.ts`: interface `SyncOperation`. -/
structure SyncOperation where
  file : TFile
  action : FileChangeAction
  timestamp : Nat
  retries : Nat
deriving DecidableEq, Repr

/-- The mutable fields of `SyncManager` that the claims depend on.  Status
callbacks are identified by numeric tokens, in registration order. -/
structure SyncState where
  status : SyncStatus
  syncQueue : List SyncOperation
  isProcessingQueue : Bool
  statusCallbacks : List Nat
  calls : List String
deriving DecidableEq, Repr

/-- `SyncManager.onStatusChange`: appends the callback to the registry. -/
def onStatusChange (st : SyncState) (cb : Nat) : SyncState :=
  { st with statusCallbacks := st.statusCallbacks ++ [cb] }

/-- `SyncManager.updateStatus` (lines 260-265): first assigns
`this.status = status`, then synchronously invokes every registered callback
in order via `forEach`.  The returned list is the sequence of callback
invocations performed before `updateStatus` returns: each entry records the
callback, the status it is handed, and the message — the status field having
already been mutated, so a `getStatus()` read from inside any callback (or
after the call returns) sees the new value. -/
def updateStatus (st : SyncState) (status : SyncStatus) (message : Option String) :
    SyncState × List (Nat × SyncStatus × Option String) :=
  let st' := { st with status := status }
  (st', st'.statusCallbacks.map (fun cb => (cb, st'.status, message)))

/-- `RetryHelper.retry` (`src/utils.ts` lines 99-125) specialised to a
gateway commit call for the file at `path`: the `for` loop makes attempts
`0..maxRetries` inclusive, returning at the first success and throwing the
last error after attempt `maxRetries` fails.  Returns the success flag and
the extended call log. -/
def retryHelper (g : Nat → Bool) (path : String) : Nat → List String → Bool × List String
  | 0, calls => (g calls.length, calls ++ [path])
  | m + 1, calls =>
    if g calls.length then (true, calls ++ [path])
    else retryHelper g path m (calls ++ [path])

/-- The `while` loop of `SyncManager.processQueue` (lines 181-184) together
with `processSyncOperation` (lines 210-236): pop the head, run it under
`RetryHelper.retry(…, 2, 1000)`; on success continue with the rest; on
failure increment the operation's `retries`, re-add it at the **front** of
the queue when `retries < 3` (drop it otherwise), and rethrow — which aborts
the loop.  Returns whether the loop drained to empty, the remaining queue,
and the call log. -/
def drainLoop (g : Nat → Bool) : List SyncOperation → List String →
    Bool × List SyncOperation × List String
  | [], calls => (true, [], calls)
  | op :: rest, calls =>
    match retryHelper g op.file.path 2 calls with
    | (true, calls') => drainLoop g rest calls'
    | (false, calls') =>
      let op' := { op with retries := op.retries + 1 }
      (false, (if op'.retries < 3 then op' :: rest else rest), calls')

/-- `SyncManager.processQueue` (lines 171-208): returns unchanged when a
drain is already in progress or the queue is empty; otherwise announces
`syncing`, runs the drain loop, and — when the loop empties the queue —
performs the trailing auto-push (its failure is caught and ignored; the
attempt is logged as `"push"`) and announces `idle`; a rethrown operation
failure is caught by the surrounding `try`, which announces `error` and
leaves the re-queued operation in place.  `finally` clears the in-progress
guard, so only the net effect on the state is shown. -/
def processQueue (g : Nat → Bool) (settings : LoomSettings) (st : SyncState) : SyncState :=
  if st.isProcessingQueue || st.syncQueue.isEmpty then st
  else
    match drainLoop g st.syncQueue st.calls with
    | (true, _, calls') =>
      let calls'' := if settings.autoPush && settings.remoteUrl != "" then calls' ++ ["push"] else calls'
      { st with status := .idle, syncQueue := [], isProcessingQueue := false, calls := calls'' }
    | (false, q', calls') =>
      { st with status := .error, syncQueue := q', isProcessingQueue := false, calls := calls' }

/-- `SyncManager.handleFileChange` (lines 64-79): a sticky `error` or
`offline` status silently drops the event; otherwise a fresh operation
(`retries = 0`, enqueued at time `now`) is appended to the queue and the
queue is processed. -/
def handleFileChange (g : Nat → Bool) (settings : LoomSettings) (now : Nat)
    (file : TFile) (action : FileChangeAction) (st : SyncState) : SyncState :=
  if st.status = .error ∨ st.status = .offline then st
  else
    processQueue g settings
      { st with syncQueue := st.syncQueue ++ [⟨file, action, now, 0⟩] }

/-- `SyncManager.initialize` (lines 29-51; named `initializeManager` here
because `initialize` is reserved in Lean): offline when the repository
check fails (but see `isRepositoryInitialized` — it cannot fail), offline
when a remote is configured and `testConnection` (`connOk`) reports it
unreachable, idle otherwise.  `repoExists` is whether the vault really is a
repository. -/
def initializeManager (settings : LoomSettings) (repoExists connOk : Bool) (st : SyncState) : SyncState :=
  if !(isRepositoryInitialized repoExists) then { st with status := .offline }
  else if settings.remoteUrl != "" then
    if !connOk then { st with status := .offline }
    else { st with status := .idle }
  else { st with status := .idle }

/-- `SyncManager.pullFromRemote` (lines 129-148).  `gw` is the gateway
pull's outcome.  Returns the error propagated to the caller (if any), the
resulting state, and the `updateStatus` announcements made, in order. -/
def pullFromRemote (settings : LoomSettings) (gw : Except String Unit) (st : SyncState) :
    Option String × SyncState × List (SyncStatus × Option String) :=
  if settings.remoteUrl = "" then (some "No remote repository configured", st, [])
  else
    match gw with
    | .ok _ =>
      (none, { st with status := .idle },
       [(.syncing, some "Pulling from remote"), (.idle, some "Pull completed")])
    | .error e =>
      (some e, { st with status := .error },
       [(.syncing, some "Pulling from remote"), (.error, some ("Pull failed: " ++ e))])

/-- `SyncManager.pushToRemote` (lines 150-169), exactly parallel to
`pullFromRemote`. -/
def pushToRemote (settings : LoomSettings) (gw : Except String Unit) (st : SyncState) :
    Option String × SyncState × List (SyncStatus × Option String) :=
  if settings.remoteUrl = "" then (some "No remote repository configured", st, [])
  else
    match gw with
    | .ok _ =>
      (none, { st with status := .idle },
       [(.syncing, some "Pushing to remote"), (.idle, some "Push completed")])
    | .error e =>
      (some e, { st with status := .error },
       [(.syncing, some "Pushing to remote"), (.error, some ("Push failed: " ++ e))])

/-- The persistently failing gateway: every call throws. -/
def alwaysFail : Nat → Bool :=
  fun _ => false

/-! ## Helper lemmas -/

/-- When every consecutive gap of a call sequence stays below the delay,
the debounced function runs exactly once, with the arguments of the last
call. -/
theorem debounceRuns_last {α : Type} (delay : Nat) :
    ∀ (l : List (Nat × α)) (t : Nat) (a : α),
      withinWindow delay l = true → l.getLast? = some (t, a) →
      debounceRuns delay l = [a] := by
  intro l
  induction l with
  | nil => intro t a _ hlast; simp at hlast
  | cons x xs ih =>
    intro t a hw hlast
    cases xs with
    | nil =>
      simp [List.getLast?] at hlast
      simp [debounceRuns, hlast]
    | cons y ys =>
      obtain ⟨x1, x2⟩ := x
      obtain ⟨y1, y2⟩ := y
      simp only [withinWindow, Bool.and_eq_true, decide_eq_true_eq] at hw
      have hlast' : ((y1, y2) :: ys).getLast? = some (t, a) := by
        simpa [List.getLast?_cons_cons] using hlast
      have := ih t a hw.2 hlast'
      simp [debounceRuns, hw.1, this]

/-- A replacement string without a dollar sign is inserted literally. -/
theorem expandRepl_no_dollar (matched before after : List Char) :
    ∀ (l : List Char), '$' ∉ l → expandRepl matched before after l = l := by
  intro l
  induction l with
  | nil => intro _; rfl
  | cons c rest ih =>
    intro h
    have hc : c ≠ '$' := fun hc => h (hc ▸ List.mem_cons_self c rest)
    have hrest : '$' ∉ rest := fun hr => h (List.mem_cons_of_mem c hr)
    cases rest with
    | nil => simp [expandRepl, hc]
    | cons d rest2 =>
      rw [show expandRepl matched before after (c :: d :: rest2)
            = c :: expandRepl matched before after (d :: rest2) from by
        cases hcd : c == '$' with
        | true => exact absurd (by simpa using hcd) hc
        | false =>
          conv_lhs => rw [expandRepl.eq_def]
          simp [hc]]
      rw [ih hrest]

/-- `jsReplace` agrees with plain literal substitution whenever the
replacement string contains no dollar sign. -/
theorem jsReplace_no_dollar (s pat repl : String) (h : '$' ∉ repl.data) :
    jsReplace s pat repl = literalReplace s pat repl := by
  unfold jsReplace literalReplace
  cases hsp : splitAtFirst s.data pat.data with
  | none => rfl
  | some p => simp [expandRepl_no_dollar pat.data p.1 p.2 repl.data h]

/-- The display names are already capitalized, so `capitalizeFirst` leaves
them unchanged. -/
theorem capitalizeFirst_displayName (action : FileChangeAction) :
    capitalizeFirst (getActionDisplayName action) = getActionDisplayName action := by
  cases action <;> decide

/-- No display name contains a dollar sign. -/
theorem displayName_no_dollar (action : FileChangeAction) :
    '$' ∉ (getActionDisplayName action).data := by
  cases action <;> decide

/-- `sanitizeFilename` leaves no commit-hostile character in its output. -/
theorem sanitizeFilename_clean (s : String) :
    ∀ c ∈ (sanitizeFilename s).data, isBadCommitChar c = false := by
  intro c hc
  simp only [sanitizeFilename, String.data] at hc
  simp only [List.mem_map] at hc
  obtain ⟨x, _, hx⟩ := hc
  by_cases hbad : isBadCommitChar x = true
  · rw [← hx]; simp only [hbad, if_true]; decide
  · rw [← hx]; simp [Bool.not_eq_true] at hbad; simp [hbad]

/-- C1, counterexample.  The claim says the single operation of a debounce
window "carries a commit message that deterministically reflects the whole
batch of accumulated events (last action wins when a path appears twice)".
On the code this fails: `debounce` keeps only the **latest** call's
arguments, so for the two-event window `create a.md` then (100 ms later)
`modify b.md` — both events accepted by the filter — the watcher delivers
only the `b.md` event.  The spec-side batch (`specWindowBatch`, last action
per path) still contains both paths, so the single emitted operation cannot
reflect the whole batch: the `a.md` event is discarded, not batched. -/
theorem C1_counterexample :
    watcherEmits DEFAULT_SETTINGS
        [(0, ⟨"a.md", "a.md"⟩, .create), (100, ⟨"b.md", "b.md"⟩, .modify)]
      = [(⟨"b.md", "b.md"⟩, .modify)]
    ∧ specWindowBatch [(⟨"a.md", "a.md"⟩, .create), (⟨"b.md", "b.md"⟩, .modify)]
      = [(⟨"a.md", "a.md"⟩, .create), (⟨"b.md", "b.md"⟩, .modify)]
    ∧ ([((⟨"b.md", "b.md"⟩ : TFile), FileChangeAction.modify)]
        ≠ [((⟨"a.md", "a.md"⟩ : TFile), FileChangeAction.create),
           (⟨"b.md", "b.md"⟩, FileChangeAction.modify)]) :=
  ⟨by decide, by decide, by decide⟩

/-- C1, amended claim: for every finite sequence of events whose arrivals
all fall within one debounce window (each gap below the fixed 500 ms), the
watcher delivers exactly one event when the window elapses, namely the
**last** event of the window (which must itself pass the filter); all
earlier events of the window — including those on different paths — are
discarded rather than batched. -/
theorem C1_amended (settings : LoomSettings) (events : List (Nat × TFile × FileChangeAction))
    (t : Nat) (f : TFile) (a : FileChangeAction)
    (hwin : withinWindow 500 events = true)
    (hlast : events.getLast? = some (t, f, a))
    (hacc : shouldIgnoreFile settings f.path = false) :
    watcherEmits settings events = [(f, a)] := by
  unfold watcherEmits
  rw [debounceRuns_last 500 events t (f, a) hwin hlast]
  simp [List.filter, hacc]

/-- C1, witness for the amended claim at a concrete two-event window. -/
theorem C1_witness :
    watcherEmits DEFAULT_SETTINGS
        [(0, ⟨"a.md", "a.md"⟩, .create), (100, ⟨"b.md", "b.md"⟩, .modify)]
      = [(⟨"b.md", "b.md"⟩, .modify)] :=
  C1_amended DEFAULT_SETTINGS _ 100 ⟨"b.md", "b.md"⟩ .modify (by decide) (by decide) (by decide)

/-! ## Claim C2 -/

/-- C2, counterexample.  The claim says a persistently failing operation is
abandoned only after a combined budget of 6 total attempts (2 inner × 3
outer), and that the Coordinator transitions to `error` only after both
retry levels are exhausted.  On the code this fails: one file change
processed against a persistently failing gateway leaves the Coordinator in
`error` after a single processing pass of exactly 3 gateway attempts
(`RetryHelper.retry(…, 2, …)` = 1 initial + 2 retries), with the operation
re-queued at `retries = 1` — the outer cap of 3 is nowhere near exhausted
when `error` is reached, and the per-pass attempt count is 3, not 2. -/
theorem C2_counterexample :
    (handleFileChange alwaysFail DEFAULT_SETTINGS 0 ⟨"note.md", "note.md"⟩ .create
        ⟨.idle, [], false, [], []⟩).status = SyncStatus.error
    ∧ (handleFileChange alwaysFail DEFAULT_SETTINGS 0 ⟨"note.md", "note.md"⟩ .create
        ⟨.idle, [], false, [], []⟩).calls.length = 3
    ∧ (handleFileChange alwaysFail DEFAULT_SETTINGS 0 ⟨"note.md", "note.md"⟩ .create
        ⟨.idle, [], false, [], []⟩).syncQueue
      = [⟨⟨"note.md", "note.md"⟩, .create, 0, 1⟩] :=
  ⟨by decide, by decide, by decide⟩

/-- C2, amended claim: each processing pass makes 1 initial attempt plus 2
gateway-level retries, i.e. exactly 3 gateway attempts; after a failed pass
the operation is re-queued at the front with its retry counter incremented
(and is dropped once the counter reaches 3, as the second conjunct shows for
a pass starting at `retries = 2`), but the failure is also rethrown into the
drain loop, which transitions the Coordinator to `error` at the end of the
**first** failed pass — not only after both levels are exhausted.  Since
`error` is sticky for file events, a persistently failing operation receives
exactly 3 total gateway attempts in the automatic flow. -/
theorem C2_amended (file : TFile) (action : FileChangeAction) (now : Nat)
    (settings : LoomSettings) :
    handleFileChange alwaysFail settings now file action ⟨.idle, [], false, [], []⟩
      = ⟨.error, [⟨file, action, now, 1⟩], false, [], [file.path, file.path, file.path]⟩
    ∧ drainLoop alwaysFail [⟨file, action, now, 2⟩] []
      = (false, [], [file.path, file.path, file.path]) := by
  constructor
  · simp [handleFileChange, processQueue, drainLoop, retryHelper, alwaysFail]
  · simp [drainLoop, retryHelper, alwaysFail]

/-! ## Claim C3 -/

/-- C3, counterexample.  The claim says a single operation's failure never
aborts the drain loop, so every other operation already in the queue is
still popped and processed in the same drain pass.  On the code this fails:
`processSyncOperation` rethrows after re-queuing, and `processQueue`'s
`try` wraps the whole `while` loop, so the first operation's failure ends
the pass.  With queue `[a.md, b.md]` and a persistently failing gateway,
the pass ends in `error` with `b.md` still in the queue and no gateway
attempt ever made for it. -/
theorem C3_counterexample :
    (processQueue alwaysFail DEFAULT_SETTINGS
        ⟨.idle, [⟨⟨"a.md", "a.md"⟩, .modify, 0, 0⟩, ⟨⟨"b.md", "b.md"⟩, .create, 1, 0⟩],
         false, [], []⟩).syncQueue
      = [⟨⟨"a.md", "a.md"⟩, .modify, 0, 1⟩, ⟨⟨"b.md", "b.md"⟩, .create, 1, 0⟩]
    ∧ ("b.md" ∉ (processQueue alwaysFail DEFAULT_SETTINGS
        ⟨.idle, [⟨⟨"a.md", "a.md"⟩, .modify, 0, 0⟩, ⟨⟨"b.md", "b.md"⟩, .create, 1, 0⟩],
         false, [], []⟩).calls)
    ∧ (processQueue alwaysFail DEFAULT_SETTINGS
        ⟨.idle, [⟨⟨"a.md", "a.md"⟩, .modify, 0, 0⟩, ⟨⟨"b.md", "b.md"⟩, .create, 1, 0⟩],
         false, [], []⟩).status = SyncStatus.error :=
  ⟨by decide, by decide, by decide⟩

/-- C3, amended claim: the failure of an operation is caught (`processQueue`
is total — no exception escapes the Coordinator), but it aborts the current
drain pass: when the head operation fails all its gateway attempts, the
pass ends in `error` with the failed operation re-queued at the front and
every operation behind it left in the queue, unpopped and unprocessed (the
gateway log shows attempts only for the failed head). -/
theorem C3_amended (file : TFile) (action : FileChangeAction) (now : Nat)
    (rest : List SyncOperation) (cbs : List Nat) (settings : LoomSettings) :
    processQueue alwaysFail settings ⟨.idle, ⟨file, action, now, 0⟩ :: rest, false, cbs, []⟩
      = ⟨.error, ⟨file, action, now, 1⟩ :: rest, false, cbs,
         [file.path, file.path, file.path]⟩ := by
  simp [processQueue, drainLoop, retryHelper, alwaysFail]

/-! ## Claim C4 -/

/-- C4, counterexample.  The claim says `initialize()` transitions to
`offline` whenever the repository does not exist.  On the code this fails:
`GitService.isRepositoryInitialized()` is a stub that returns `true`
unconditionally, so with no repository (`repoExists = false`) and no remote
configured, `initialize()` ends in `idle` — even from a prior `offline`
state — instead of `offline`. -/
theorem C4_counterexample :
    (initializeManager DEFAULT_SETTINGS false true ⟨.offline, [], false, [], []⟩).status
      = SyncStatus.idle
    ∧ SyncStatus.idle ≠ SyncStatus.offline :=
  ⟨by decide, by decide⟩

/-- C4, amended claim: `initialize()` never detects a missing repository
(the existence check is a stub reporting success unconditionally); it
transitions to `offline` exactly when a remote is configured and the
connectivity test fails, and to `idle` otherwise — regardless of whether
the repository exists. -/
theorem C4_amended (settings : LoomSettings) (repoExists connOk : Bool) (st : SyncState) :
    initializeManager settings repoExists connOk st
      = { st with status := if settings.remoteUrl != "" && !connOk then .offline else .idle } := by
  unfold initializeManager isRepositoryInitialized
  by_cases h : settings.remoteUrl != ""
  · cases connOk <;> simp [h]
  · simp [h]

/-! ## Claim C5 -/

/-- C5, confirmed: with no remote configured, `pull()` and `push()` fail
fast with the configuration error `"No remote repository configured"`,
leave the state unchanged and announce nothing (in particular they never
transition to `syncing`); with a remote configured, each announces
`syncing`, then on gateway success announces `idle` and returns no error,
and on gateway failure announces `error` and re-raises the gateway's error
to the caller. -/
theorem C5_pull_push (settings : LoomSettings) (gw : Except String Unit) (st : SyncState) :
    (settings.remoteUrl = "" →
      pullFromRemote settings gw st = (some "No remote repository configured", st, [])
      ∧ pushToRemote settings gw st = (some "No remote repository configured", st, []))
    ∧ (settings.remoteUrl ≠ "" →
      (∀ u, gw = Except.ok u →
        pullFromRemote settings gw st
          = (none, { st with status := .idle },
             [(.syncing, some "Pulling from remote"), (.idle, some "Pull completed")])
        ∧ pushToRemote settings gw st
          = (none, { st with status := .idle },
             [(.syncing, some "Pushing to remote"), (.idle, some "Push completed")]))
      ∧ (∀ e, gw = Except.error e →
        pullFromRemote settings gw st
          = (some e, { st with status := .error },
             [(.syncing, some "Pulling from remote"), (.error, some ("Pull failed: " ++ e))])
        ∧ pushToRemote settings gw st
          = (some e, { st with status := .error },
             [(.syncing, some "Pushing to remote"), (.error, some ("Push failed: " ++ e))]))) := by
  refine ⟨fun h => ?_, fun h => ⟨fun u hu => ?_, fun e he => ?_⟩⟩
  · exact ⟨by simp [pullFromRemote, h], by simp [pushToRemote, h]⟩
  · subst hu; exact ⟨by simp [pullFromRemote, h], by simp [pushToRemote, h]⟩
  · subst he; exact ⟨by simp [pullFromRemote, h], by simp [pushToRemote, h]⟩

/-- C5, witness: with the default settings (no remote), `pull()` raises the
configuration error and leaves the state untouched. -/
theorem C5_witness :
    pullFromRemote DEFAULT_SETTINGS (Except.ok ()) ⟨.idle, [], false, [], []⟩
      = (some "No remote repository configured", ⟨.idle, [], false, [], []⟩, []) :=
  ((C5_pull_push DEFAULT_SETTINGS (Except.ok ()) ⟨.idle, [], false, [], []⟩).1 rfl).1

/-! ## Claim C6 -/

/-- C7, confirmed: `updateStatus` first mutates the status field and only
then synchronously invokes the subscribers, so every subscriber registered
at announce time is called exactly once per transition, in registration
order (the invocation log projects back to the registration list), each
call carries the new status and the message, and the state returned — i.e.
the state any continuation or callback reads after the mutation — already
holds the new status: no stale read is possible once the transition
completes. -/
theorem C7_broadcast (st : SyncState) (status : SyncStatus) (message : Option String) :
    (updateStatus st status message).1 = { st with status := status }
    ∧ ((updateStatus st status message).2.map (fun e => e.1)) = st.statusCallbacks
    ∧ (∀ e ∈ (updateStatus st status message).2, e.2.1 = status ∧ e.2.2 = message)
    ∧ (updateStatus st status message).1.status = status := by
  refine ⟨rfl, ?_, ?_, rfl⟩
  · have : ((fun (e : Nat × SyncStatus × Option String) => e.1) ∘
        fun cb => (cb, status, message)) = fun (cb : Nat) => cb := rfl
    simp [updateStatus, this]
  · intro e he
    simp only [updateStatus, List.mem_map] at he
    obtain ⟨cb, _, rfl⟩ := he
    exact ⟨rfl, rfl⟩

/-- C7, witness: a transition with two subscribers calls both, in order. -/
theorem C7_witness :
    ((updateStatus ⟨.idle, [], false, [3, 5], []⟩ .syncing
        (some "Processing file changes")).2.map (fun e => e.1)) = [3, 5] :=
  (C7_broadcast ⟨.idle, [], false, [3, 5], []⟩ .syncing (some "Processing file changes")).2.1

/-! ## Claim C8 -/

/-- C8, counterexample.  The claim says that after a settings update changes
the debounce delay, subsequent accepted events use the new delay window.
On the code this fails: the debounced handler is created once, at
construction, with the literal delay 500 (`// Use a fixed debounce for
now`), and `updateSettings` replaces only the settings object.  After
updating to `debounceDelay = 1000`, the watcher's settings do carry 1000,
but the handler's window is still 500. -/
theorem C8_counterexample :
    (FileWatcher.update (newFileWatcher DEFAULT_SETTINGS)
        { DEFAULT_SETTINGS with debounceDelay := 1000 }).handlerDelay = 500
    ∧ (FileWatcher.update (newFileWatcher DEFAULT_SETTINGS)
        { DEFAULT_SETTINGS with debounceDelay := 1000 }).settings.debounceDelay = 1000
    ∧ (500 : Nat) ≠ 1000 :=
  ⟨by decide, by decide, by decide⟩

/-- C8, amended claim: a settings update is observable (the watcher's
settings object is replaced without a restart), but the aggregator's
debounce window is not configurable: it stays at the hard-coded 500 ms
whatever `debounceDelay` the updated settings carry. -/
theorem C8_amended (s0 s1 : LoomSettings) :
    (FileWatcher.update (newFileWatcher s0) s1).settings = s1
    ∧ (FileWatcher.update (newFileWatcher s0) s1).handlerDelay = 500 :=
  ⟨rfl, rfl⟩

/-! ## Claim C9 -/

/-- C9, confirmed: a file-change event delivered while the Coordinator's
status is `error` or `offline` is silently dropped — `handleFileChange`
returns the state unchanged, so nothing is enqueued, the queue length is
unchanged and the status is unchanged. -/
theorem C9_sticky (g : Nat → Bool) (settings : LoomSettings) (now : Nat) (file : TFile)
    (action : FileChangeAction) (st : SyncState)
    (h : st.status = .error ∨ st.status = .offline) :
    handleFileChange g settings now file action st = st := by
  unfold handleFileChange
  rw [if_pos h]

/-- C9, witness: an event arriving in the `offline` state is dropped. -/
theorem C9_witness :
    handleFileChange alwaysFail DEFAULT_SETTINGS 7 ⟨"c.md", "c.md"⟩ .modify
        ⟨.offline, [], false, [], []⟩
      = ⟨.offline, [], false, [], []⟩ :=
  C9_sticky alwaysFail DEFAULT_SETTINGS 7 ⟨"c.md", "c.md"⟩ .modify
    ⟨.offline, [], false, [], []⟩ (Or.inr rfl)

/-! ## Claim C10 -/

/-- C10, counterexample.  The claim says the generated commit message equals
the template with `{filename}` replaced by the sanitized file name.  On the
code this fails for file names containing JavaScript replacement-string
dollar escapes, which `sanitizeFilename` does not touch (its class is only
`<>:"|?*`): for the file name `a$&b.md`, `String.replace` expands `$&` to
the matched substring `{filename}`, producing `Created: a{filename}b.md`
instead of the literal substitution `Created: a$&b.md`. -/
theorem C10_counterexample :
    generateOperationMessage DEFAULT_SETTINGS .create "a$&b.md" = "Created: a{filename}b.md"
    ∧ literalReplace (literalReplace DEFAULT_SETTINGS.commitMessageTemplate "{action}"
          (getActionDisplayName .create)) "{filename}" (sanitizeFilename "a$&b.md")
      = "Created: a$&b.md"
    ∧ ("Created: a{filename}b.md" : String) ≠ "Created: a$&b.md" :=
  ⟨by decide, by decide, by decide⟩

/-- C10, amended claim: whenever the sanitized file name contains no dollar
sign (so no JavaScript replacement-string escape applies), the generated
commit message equals the configured template with `{action}` replaced by
the capitalized display name of the event kind (Created, Updated, Deleted,
Renamed — already capitalized, so `capitalizeFirst` is the identity on
them) and `{filename}` replaced by the file's name with every occurrence of
`< > : " | ? *` replaced by an underscore; and the sanitized filename
portion never contains any of those characters. -/
theorem C10_amended (settings : LoomSettings) (action : FileChangeAction) (fileName : String)
    (h : '$' ∉ (sanitizeFilename fileName).data) :
    generateOperationMessage settings action fileName
      = literalReplace (literalReplace settings.commitMessageTemplate "{action}"
          (getActionDisplayName action)) "{filename}" (sanitizeFilename fileName)
    ∧ (∀ c ∈ (sanitizeFilename fileName).data, isBadCommitChar c = false) := by
  constructor
  · unfold generateOperationMessage generateCommitMessage
    rw [capitalizeFirst_displayName]
    rw [jsReplace_no_dollar _ _ _ (displayName_no_dollar action)]
    rw [jsReplace_no_dollar _ _ _ h]
  · exact sanitizeFilename_clean fileName

/-- C10, witness: a dollar-free name with a forbidden `?` is sanitized and
substituted literally. -/
theorem C10_witness :
    ('$' ∉ (sanitizeFilename "my?note.md").data)
    ∧ generateOperationMessage DEFAULT_SETTINGS .create "my?note.md"
      = literalReplace (literalReplace DEFAULT_SETTINGS.commitMessageTemplate "{action}"
          (getActionDisplayName .create)) "{filename}" (sanitizeFilename "my?note.md") :=
  ⟨by decide, (C10_amended DEFAULT_SETTINGS .create "my?note.md" (by decide)).1⟩

end Loom
